import Mathlib

/-!
Shallow embedding of the traffic-signal simulation core of the repository:
`src/traffic_simulator.py` (class `TrafficSimulator`) and
`src/junction_manager.py` (class `JunctionManager`).

Modelling conventions:
* Python floats are modelled by `ℚ` (all comparisons in the source are exact
  threshold comparisons, never rounding-sensitive).
* Python dicts keyed by strings are modelled by association lists
  `List (String × _)`, preserving insertion order (Python dicts preserve
  insertion order, which matters for `max(..., key=...)` tie-breaking).
* The stochastic draws (`np.random.poisson`, `np.random.choice`) are modelled
  by an oracle argument supplying the drawn vehicle types; a Poisson mean of 0
  forces zero arrivals, and a negative mean is an error
  (`np.random.poisson` raises `ValueError` for `lam < 0`).
* A Python method that can raise is embedded as a function returning the
  mutated state paired with `Except String _` for its result, so that state
  mutated before the raise is retained, as in Python.
-/

namespace Traffic

/-- A queued vehicle: the dict `{"type": v_type, "arrival_time": sim_time}`
appended in `TrafficSimulator.step`. -/
structure Vehicle where
  vtype : String
  arrival_time : ℚ
deriving Repr, DecidableEq

/-- The mutable state of one `TrafficSimulator` instance. -/
structure LaneState where
  lane_id : String
  arrival_rate : ℚ
  sim_time : ℚ
  queue : List Vehicle
  vehicles_passed : Nat
  vehicle_probs : List (String × ℚ)
deriving Repr, DecidableEq

/-- Default vehicle-type probabilities from `TrafficSimulator.__init__`. -/
def default_vehicle_probs : List (String × ℚ) :=
  [("Car", 1/2), ("Bike", 3/10), ("Bus", 1/10), ("Truck", 1/10)]

/-- Hard-coded discharge cost table `self.discharge_costs` (seconds to clear
the intersection per vehicle type). -/
def discharge_costs : List (String × ℚ) :=
  [("Car", 2), ("Bike", 1), ("Bus", 3), ("Truck", 4)]

/-- `self.discharge_costs.get(v_type, 2.0)`: table lookup with default 2.0 s. -/
def dischargeCost (t : String) : ℚ :=
  (discharge_costs.lookup t).getD 2

/-- `TrafficSimulator.__init__`.  `vehicle_probs or {...}` in Python takes the
default both for `None` and for an empty (falsy) dict, hence the match. -/
def ts_init (lane_id : String) (arrival_rate_per_min : ℚ)
    (vehicle_probs : Option (List (String × ℚ))) : LaneState :=
  { lane_id := lane_id
    arrival_rate := arrival_rate_per_min
    sim_time := 0
    queue := []
    vehicles_passed := 0
    vehicle_probs :=
      match vehicle_probs with
      | none => default_vehicle_probs
      | some [] => default_vehicle_probs
      | some ps => ps }

/-- Return value of `TrafficSimulator.step`. -/
structure ArrivalReport where
  lane_id : String
  new_arrivals : Nat
  queue_length : Nat
  new_types : List String
deriving Repr, DecidableEq

/-- `TrafficSimulator.step(duration_seconds)`.  `drawnTypes` is the oracle for
the composite random draw (Poisson count, then categorical types; its length
is the Poisson sample).  `sim_time` is advanced before the Poisson call, so a
negative-mean `ValueError` still leaves the clock mutated, as in Python. -/
def ts_step (st : LaneState) (duration_seconds : ℚ) (drawnTypes : List String) :
    LaneState × Except String ArrivalReport :=
  let st1 := { st with sim_time := st.sim_time + duration_seconds }
  let lam := st.arrival_rate / 60 * duration_seconds
  if lam < 0 then (st1, .error "lam < 0")
  else
    let new_vehicle_types := if lam = 0 then [] else drawnTypes
    let st2 := { st1 with
      queue := st1.queue ++
        new_vehicle_types.map (fun t => { vtype := t, arrival_time := st1.sim_time }) }
    (st2, .ok { lane_id := st.lane_id
                new_arrivals := new_vehicle_types.length
                queue_length := st2.queue.length
                new_types := new_vehicle_types })

/-- Return value of `TrafficSimulator.process_traffic`. -/
structure DepartureReport where
  discharged_count : Nat
  discharged_types : List String
  avg_wait_time : ℚ
deriving Repr, DecidableEq

/-- The `while self.queue and time_remaining > 0` loop of `process_traffic`,
threading the loop variables.  Returns the remaining queue together with
`(discharged_count, discharged_types, total_wait_time)`. -/
def processLoop (sim_time : ℚ) (queue : List Vehicle) (time_remaining : ℚ)
    (discharged_count : Nat) (discharged_types : List String) (total_wait : ℚ) :
    List Vehicle × Nat × List String × ℚ :=
  match queue with
  | [] => ([], discharged_count, discharged_types, total_wait)
  | v :: rest =>
    if time_remaining > 0 then
      let cost := dischargeCost v.vtype
      if time_remaining ≥ cost ∨ (discharged_count = 0 ∧ time_remaining > 1/2) then
        processLoop sim_time rest (time_remaining - cost) (discharged_count + 1)
          (discharged_types ++ [v.vtype]) (total_wait + (sim_time - v.arrival_time))
      else
        (v :: rest, discharged_count, discharged_types, total_wait)
    else
      (v :: rest, discharged_count, discharged_types, total_wait)

/-- `TrafficSimulator.process_traffic(green_light_duration)`. -/
def process_traffic (st : LaneState) (green_light_duration : ℚ) :
    LaneState × DepartureReport :=
  let r := processLoop st.sim_time st.queue green_light_duration 0 [] 0
  let st' := { st with queue := r.1, vehicles_passed := st.vehicles_passed + r.2.1 }
  (st', { discharged_count := r.2.1
          discharged_types := r.2.2.1
          avg_wait_time := if r.2.1 > 0 then r.2.2.2 / (r.2.1 : ℚ) else 0 })

/-- The policy configuration dict of `JunctionManager.__init__` after the
optional `config.update(...)` merge (the merge itself is a plain dict update;
callers of `jm_init` pass the merged result). -/
structure JConfig where
  min_green_time : ℚ
  max_green_time : ℚ
  queue_threshold : ℚ
  max_wait_time : ℚ
  alpha_wait_weight : ℚ
  arrival_rates : List (String × ℚ)
deriving Repr, DecidableEq

/-- The default configuration dict of `JunctionManager.__init__`. -/
def default_config : JConfig :=
  { min_green_time := 5
    max_green_time := 30
    queue_threshold := 15
    max_wait_time := 45
    alpha_wait_weight := 1/2
    arrival_rates := [("North", 12), ("South", 10), ("East", 8), ("West", 15)] }

/-- Which of the three transition rules fired.  The source returns f-strings
`"LANE_EMPTY (...)"`, `"MAX_TIME_EXPIRED (...)"`, `"PRIORITY_OVERRIDE (...)"`;
only the tag is modelled, the interpolated detail is presentation. -/
inductive SwitchReason where
  | LANE_EMPTY
  | MAX_TIME_EXPIRED
  | PRIORITY_OVERRIDE
deriving Repr, DecidableEq

/-- An entry of `self.events_log` appended by `execute_switch`.  The source
formats the time as the string `f"{sim_time:.1f}s"`; the numeric value is
modelled. -/
structure SwitchEvent where
  time : ℚ
  event : String
  from_lane : String
  to_lane : String
  reason : SwitchReason
deriving Repr, DecidableEq

/-- The mutable state of one `JunctionManager` instance. -/
structure JunctionState where
  config : JConfig
  lanes : List (String × LaneState)
  active_lane_id : String
  sim_time : ℚ
  last_switch_time : ℚ
  lane_last_green_times : List (String × ℚ)
  events_log : List SwitchEvent
deriving Repr, DecidableEq

/-- `JunctionManager.__init__` (with the merged configuration): builds one
`TrafficSimulator` per entry of `arrival_rates`, starts with lane `"North"`
active, all clocks at 0 and an empty event log.  The source performs no
validation of the configuration whatsoever. -/
def jm_init (cfg : JConfig) : JunctionState :=
  { config := cfg
    lanes := cfg.arrival_rates.map (fun p => (p.1, ts_init p.1 p.2 none))
    active_lane_id := "North"
    sim_time := 0
    last_switch_time := 0
    lane_last_green_times := cfg.arrival_rates.map (fun p => (p.1, 0))
    events_log := [] }

/-- Assignment `d[k] = v` on an insertion-ordered dict: update in place when
the key exists, append otherwise. -/
def setKey {α : Type} (l : List (String × α)) (k : String) (v : α) :
    List (String × α) :=
  if l.any (fun p => p.1 = k) then
    l.map (fun p => if p.1 = k then (k, v) else p)
  else
    l ++ [(k, v)]

/-- `JunctionManager.execute_switch(target_lane, reason)`: append the event,
move the green to `target_lane`, stamp `last_switch_time` and the target's
`lane_last_green_times` entry with the current `sim_time`; return the reason. -/
def execute_switch (j : JunctionState) (target_lane : String)
    (reason : SwitchReason) : JunctionState × SwitchReason :=
  ({ j with
      events_log := j.events_log ++
        [{ time := j.sim_time
           event := "SHIFT_PRIORITY"
           from_lane := j.active_lane_id
           to_lane := target_lane
           reason := reason }]
      active_lane_id := target_lane
      last_switch_time := j.sim_time
      lane_last_green_times := setKey j.lane_last_green_times target_lane j.sim_time },
   reason)

/-- The per-lane priority score computed in `evaluate_switch_conditions`:
`wait_time = sim_time - lane_last_green_times[lid]`, zeroed for the active
lane, then `score = queue_length + alpha_wait_weight * wait_time`. -/
def laneScore (j : JunctionState) (lid : String) (lane : LaneState) : ℚ :=
  let wait_time :=
    if lid = j.active_lane_id then 0
    else j.sim_time - ((j.lane_last_green_times.lookup lid).getD 0)
  (lane.queue.length : ℚ) + j.config.alpha_wait_weight * wait_time

/-- The `scores` dict built by the first loop of `evaluate_switch_conditions`. -/
def scoresOf (j : JunctionState) : List (String × ℚ) :=
  j.lanes.map (fun p => (p.1, laneScore j p.1 p.2))

/-- The priority-score formula as the spec words it, for comparison with the
code's `scoresOf`: `score(L) = queueLength(L) + alphaWaitWeight * waitTime(L)`
with `waitTime(activeLaneId) = 0` and otherwise
`waitTime(L) = simTime - laneLastGreenTime[L]`. -/
def specScore (j : JunctionState) (lid : String) : ℚ :=
  let queueLength : ℚ :=
    ((j.lanes.lookup lid).map (fun l => (l.queue.length : ℚ))).getD 0
  let waitTime : ℚ :=
    if lid = j.active_lane_id then 0
    else j.sim_time - ((j.lane_last_green_times.lookup lid).getD 0)
  queueLength + j.config.alpha_wait_weight * waitTime

/-- Python's `max(candidates, key=candidates.get)` over an insertion-ordered
dict: the first entry attaining the maximal value (later entries replace the
running best only on strictly greater value). -/
def argmaxFirst : List (String × ℚ) → Option (String × ℚ)
  | [] => none
  | x :: xs => some (xs.foldl (fun best y => if y.2 > best.2 then y else best) x)

/-- `JunctionManager.evaluate_switch_conditions`: minimum-dwell guard, then
priority scores, then the three transition rules in fixed order
(`LANE_EMPTY`, `MAX_TIME_EXPIRED`, `PRIORITY_OVERRIDE`); the first match
switches to the best-scoring non-active lane. -/
def evaluate_switch_conditions (j : JunctionState) :
    JunctionState × Option SwitchReason :=
  let state_duration := j.sim_time - j.last_switch_time
  if state_duration < j.config.min_green_time then (j, none)
  else
    let scores := scoresOf j
    let candidates := scores.filter (fun p => p.1 ≠ j.active_lane_id)
    match argmaxFirst candidates with
    | none => (j, none)
    | some best =>
      let best_score := best.2
      let current_score := (scores.lookup j.active_lane_id).getD 0
      let current_queue_length : Nat :=
        ((j.lanes.lookup j.active_lane_id).map (fun l => l.queue.length)).getD 0
      if current_queue_length ≤ 0 ∧ best_score > 5 then
        let r := execute_switch j best.1 .LANE_EMPTY
        (r.1, some r.2)
      else if state_duration ≥ j.config.max_green_time then
        let r := execute_switch j best.1 .MAX_TIME_EXPIRED
        (r.1, some r.2)
      else if best_score > current_score + j.config.queue_threshold then
        let r := execute_switch j best.1 .PRIORITY_OVERRIDE
        (r.1, some r.2)
      else (j, none)

/-- `JunctionManager.process_departures(dt)`: run `process_traffic(dt)` on the
active lane only, discarding its report.  The lookup cannot fail when the
active lane is one of the junction's lanes (otherwise the source raises
`KeyError`; that branch is unreachable from `jm_init`). -/
def process_departures (j : JunctionState) (dt : ℚ) : JunctionState :=
  match j.lanes.lookup j.active_lane_id with
  | none => j
  | some lane =>
    let r := process_traffic lane dt
    { j with lanes := setKey j.lanes j.active_lane_id r.1 }

/-- `JunctionManager.update_arrivals(dt)` over the tail of the lane dict:
steps each lane in order; a raise from a lane's `step` aborts the iteration,
keeping the lanes already stepped (and the erroring lane's mutated clock). -/
def arrivalsFold (dt : ℚ) (draws : String → List String) :
    List (String × LaneState) →
    List (String × LaneState) × Except String (List (String × ArrivalReport))
  | [] => ([], .ok [])
  | (lid, lane) :: rest =>
    let s := ts_step lane dt (draws lid)
    match s.2 with
    | .error e => ((lid, s.1) :: rest, .error e)
    | .ok rep =>
      let r := arrivalsFold dt draws rest
      match r.2 with
      | .error e => ((lid, s.1) :: r.1, .error e)
      | .ok reps => ((lid, s.1) :: r.1, .ok ((lid, rep) :: reps))

/-- Return value of `JunctionManager.step`. -/
structure TickReport where
  lane_states : List (String × ArrivalReport)
  active_lane : String
  green_time : ℚ
  switch_event : Option SwitchReason
  sim_time : ℚ
deriving Repr, DecidableEq

/-- `JunctionManager.step(dt)`: arrivals on every lane, advance the junction
clock, evaluate the switch policy, then departures on the (possibly newly)
active lane. -/
def jm_step (j : JunctionState) (dt : ℚ) (draws : String → List String) :
    JunctionState × Except String TickReport :=
  let a := arrivalsFold dt draws j.lanes
  match a.2 with
  | .error e => ({ j with lanes := a.1 }, .error e)
  | .ok lane_states =>
    let j2 := { j with lanes := a.1, sim_time := j.sim_time + dt }
    let es := evaluate_switch_conditions j2
    let j4 := process_departures es.1 dt
    (j4, .ok { lane_states := lane_states
               active_lane := j4.active_lane_id
               green_time := j4.sim_time - j4.last_switch_time
               switch_event := es.2
               sim_time := j4.sim_time })

/-- A run of `JunctionManager.step` calls; each input is the tick's `dt`
paired with the tick's random-draw oracle. -/
def jm_run (j : JunctionState) : List (ℚ × (String → List String)) → JunctionState
  | [] => j
  | (dt, draws) :: rest => jm_run (jm_step j dt draws).1 rest

/-- A junction some way into a run, used to instantiate score theorems. -/
def jC4 : JunctionState :=
  { jm_init default_config with sim_time := 7, active_lane_id := "East" }

/-- A one-lane configuration with arrival rate 0 (so a tick is fully
deterministic), used to instantiate tick-level theorems. -/
def cfgW5 : JConfig := { default_config with arrival_rates := [("North", 0)] }

/-- The tick report produced by one `dt = 1` tick from `jm_init cfgW5`. -/
def repW5 : TickReport :=
  { lane_states :=
      [("North",
        { lane_id := "North", new_arrivals := 0, queue_length := 0,
          new_types := [] })]
    active_lane := "North"
    green_time := 1
    switch_event := none
    sim_time := 1 }

/-- An invalid configuration: `max_green_time < min_green_time`. -/
def bad_config : JConfig :=
  { default_config with min_green_time := 10, max_green_time := 4 }

/-- The tick report produced by one `dt = 0` call from `jm_init default_config`. -/
def repC6 : TickReport :=
  { lane_states :=
      [("North",
        { lane_id := "North", new_arrivals := 0, queue_length := 0,
          new_types := [] }),
       ("South",
        { lane_id := "South", new_arrivals := 0, queue_length := 0,
          new_types := [] }),
       ("East",
        { lane_id := "East", new_arrivals := 0, queue_length := 0,
          new_types := [] }),
       ("West",
        { lane_id := "West", new_arrivals := 0, queue_length := 0,
          new_types := [] })]
    active_lane := "North"
    green_time := 0
    switch_event := none
    sim_time := 0 }

/-- The tick report produced by one `dt = 1` tick from `jm_init bad_config`. -/
def repC7 : TickReport :=
  { lane_states :=
      [("North",
        { lane_id := "North", new_arrivals := 0, queue_length := 0,
          new_types := [] }),
       ("South",
        { lane_id := "South", new_arrivals := 0, queue_length := 0,
          new_types := [] }),
       ("East",
        { lane_id := "East", new_arrivals := 0, queue_length := 0,
          new_types := [] }),
       ("West",
        { lane_id := "West", new_arrivals := 0, queue_length := 0,
          new_types := [] })]
    active_lane := "North"
    green_time := 1
    switch_event := none
    sim_time := 1 }

/-- A junction whose dwell time equals `max_green_time` exactly: active lane
North holds one car, every other lane is empty but has waited 30 s. -/
def jW3 : JunctionState :=
  { jm_init default_config with
      sim_time := 30
      lanes :=
        [("North", { ts_init "North" 12 none with
                        queue := [{ vtype := "Car", arrival_time := 2 }] }),
         ("South", ts_init "South" 10 none),
         ("East", ts_init "East" 8 none),
         ("West", ts_init "West" 15 none)] }

/-- Dwell invariant: with `min_green_time` fixed at `mg`, consecutive logged
switches are at least `mg` apart, and the last logged switch happened at
`last_switch_time`. -/
def dwellInv (mg : ℚ) (j : JunctionState) : Prop :=
  j.config.min_green_time = mg ∧
  List.Chain' (fun e1 e2 => e1.time + mg ≤ e2.time) j.events_log ∧
  ∀ e, j.events_log.getLast? = some e → e.time = j.last_switch_time

/-! ### Lemmas about the departure loop -/

/-- With no time remaining the loop stops immediately. -/
theorem processLoop_nonpos (sim : ℚ) (q : List Vehicle) (tr : ℚ) (dc : Nat)
    (dts : List String) (tw : ℚ) (h : ¬ tr > 0) :
    processLoop sim q tr dc dts tw = (q, dc, dts, tw) := by
  cases q with
  | nil => simp [processLoop]
  | cons v rest => simp [processLoop, h]

/-- C1: with a non-empty queue whose head has discharge cost `c`, a green
window `1/2 < d < c` force-discharges exactly the head: the head is removed,
`vehicles_passed` rises by one and the reported `discharged_count` is 1. -/
theorem C1_starvation_guard_discharges_one (st : LaneState) (v : Vehicle)
    (rest : List Vehicle) (hq : st.queue = v :: rest) (d : ℚ)
    (hlo : 1/2 < d) (hhi : d < dischargeCost v.vtype) :
    (process_traffic st d).1.queue = rest ∧
    (process_traffic st d).1.vehicles_passed = st.vehicles_passed + 1 ∧
    (process_traffic st d).2.discharged_count = 1 := by
  have hd0 : d > 0 := lt_trans (by norm_num) hlo
  have hguard : d ≥ dischargeCost v.vtype ∨ ((0 : Nat) = 0 ∧ d > 1/2) :=
    Or.inr ⟨rfl, hlo⟩
  have hstop : ¬ d - dischargeCost v.vtype > 0 := by linarith
  have hlo' : (2 : ℚ)⁻¹ < d := by rw [← one_div]; exact hlo
  simp [process_traffic, hq, processLoop, hd0, hlo',
    processLoop_nonpos _ _ _ _ _ _ hstop]

/-- C1 witness: a lone truck (cost 4) is discharged by a 1-second window. -/
theorem C1_witness :
    ({ ts_init "L" 10 none with
        queue := [{ vtype := "Truck", arrival_time := 0 }] } : LaneState).queue
      = [{ vtype := "Truck", arrival_time := 0 }] ∧
    (1 : ℚ)/2 < 1 ∧ (1 : ℚ) < dischargeCost "Truck" ∧
    ((process_traffic
        { ts_init "L" 10 none with
            queue := [{ vtype := "Truck", arrival_time := 0 }] } 1).1.queue = [] ∧
     (process_traffic
        { ts_init "L" 10 none with
            queue := [{ vtype := "Truck", arrival_time := 0 }] } 1).1.vehicles_passed
        = ({ ts_init "L" 10 none with
              queue := [{ vtype := "Truck", arrival_time := 0 }] } : LaneState).vehicles_passed + 1 ∧
     (process_traffic
        { ts_init "L" 10 none with
            queue := [{ vtype := "Truck", arrival_time := 0 }] } 1).2.discharged_count = 1) :=
  ⟨rfl, by norm_num, by decide,
    C1_starvation_guard_discharges_one _ _ _ rfl 1 (by norm_num) (by decide)⟩

/-- C9: `process_traffic` with a non-positive green window changes nothing
(queue, `vehicles_passed` and `sim_time` untouched) and reports 0 discharged,
no types and average wait 0. -/
theorem C9_nonpositive_duration_noop (st : LaneState) (d : ℚ) (h : d ≤ 0) :
    process_traffic st d =
      (st, { discharged_count := 0, discharged_types := [], avg_wait_time := 0 }) := by
  have h' : ¬ d > 0 := not_lt.mpr h
  simp [process_traffic, processLoop_nonpos _ _ _ _ _ _ h']

/-- C9 witness: duration 0 on a lane with one queued car. -/
theorem C9_witness :
    (0 : ℚ) ≤ 0 ∧
    process_traffic
        ({ ts_init "L" 10 none with
            queue := [{ vtype := "Car", arrival_time := 0 }] } : LaneState) 0 =
      ({ ts_init "L" 10 none with
          queue := [{ vtype := "Car", arrival_time := 0 }] },
       { discharged_count := 0, discharged_types := [], avg_wait_time := 0 }) :=
  ⟨le_refl 0,
    C9_nonpositive_duration_noop
      { ts_init "L" 10 none with queue := [{ vtype := "Car", arrival_time := 0 }] } 0
      (le_refl 0)⟩

/-- C10: a vehicle type absent from the discharge-cost table gets the default
cost of 2.0 seconds, and the departure loop processes such a head vehicle
normally (no lookup failure): it is discharged with 2 seconds deducted. -/
theorem C10_default_discharge_cost (t : String)
    (h : discharge_costs.lookup t = none)
    (sim tr : ℚ) (q : List Vehicle) (v : Vehicle) (dc : Nat)
    (dts : List String) (tw : ℚ) (hv : v.vtype = t) (htr : tr > 0)
    (hcan : tr ≥ 2 ∨ (dc = 0 ∧ tr > 1/2)) :
    dischargeCost t = 2 ∧
    processLoop sim (v :: q) tr dc dts tw =
      processLoop sim q (tr - 2) (dc + 1) (dts ++ [v.vtype])
        (tw + (sim - v.arrival_time)) := by
  have hc : dischargeCost t = 2 := by simp [dischargeCost, h]
  refine ⟨hc, ?_⟩
  simp only [processLoop, if_pos htr, hv, hc]
  rw [if_pos hcan]

/-! ### Lemmas about ordered-dict lookup and assignment -/

/-- Unfolding `List.lookup` one cons at a time, stated with `ite`. -/
theorem lookup_cons_ite {α : Type} (a : String × α) (l : List (String × α))
    (k : String) :
    (a :: l).lookup k = if k = a.1 then some a.2 else l.lookup k := by
  rcases a with ⟨k1, v1⟩
  by_cases h : k = k1
  · subst h; simp [List.lookup]
  · have hb : (k == k1) = false := by simp [h]
    simp [List.lookup, hb, h]

/-- The in-place-update half of `setKey`: looking up the assigned key. -/
theorem lookup_map_setKey_self {α : Type} (k : String) (v : α) :
    ∀ l : List (String × α), l.any (fun p => decide (p.1 = k)) = true →
      (l.map (fun p => if p.1 = k then (k, v) else p)).lookup k = some v := by
  intro l
  induction l with
  | nil => simp
  | cons a rest ih =>
    intro hany
    by_cases h1 : a.1 = k
    · simp [h1, lookup_cons_ite]
    · have hrest : rest.any (fun p => decide (p.1 = k)) = true := by
        simpa [h1] using hany
      have h1' : ¬ k = a.1 := fun hc => h1 hc.symm
      simpa [h1, lookup_cons_ite, h1'] using ih hrest

/-- The in-place-update half of `setKey` leaves other keys alone. -/
theorem lookup_map_setKey_other {α : Type} (k k' : String) (v : α) (h : k' ≠ k) :
    ∀ l : List (String × α),
      (l.map (fun p => if p.1 = k then (k, v) else p)).lookup k' = l.lookup k' := by
  intro l
  induction l with
  | nil => simp
  | cons a rest ih =>
    by_cases h1 : a.1 = k
    · have hk' : ¬ k' = a.1 := by rw [h1]; exact h
      simp [h1, lookup_cons_ite, h, hk', ih]
    · by_cases h2 : k' = a.1
      · simp [h1, lookup_cons_ite, h2]
      · simp [h1, lookup_cons_ite, h2, ih]

/-- Appending a single binding does not affect other keys. -/
theorem lookup_append_single_other {α : Type} (k k' : String) (v : α) (h : k' ≠ k) :
    ∀ l : List (String × α), (l ++ [(k, v)]).lookup k' = l.lookup k' := by
  intro l
  induction l with
  | nil => simp [lookup_cons_ite, h]
  | cons a rest ih =>
    by_cases h2 : k' = a.1 <;> simp [lookup_cons_ite, h2, ih]

/-- Appending a single binding for an absent key makes it found. -/
theorem lookup_append_single_self {α : Type} (k : String) (v : α) :
    ∀ l : List (String × α), ¬ l.any (fun p => decide (p.1 = k)) = true →
      (l ++ [(k, v)]).lookup k = some v := by
  intro l
  induction l with
  | nil => simp [lookup_cons_ite]
  | cons a rest ih =>
    intro hany
    have h1 : ¬ a.1 = k := by
      intro hk
      exact hany (by simp [List.any_cons, hk])
    have hrest : ¬ rest.any (fun p => decide (p.1 = k)) = true := by
      intro hk
      exact hany (by simp [List.any_cons, hk])
    have h1' : ¬ k = a.1 := fun hc => h1 hc.symm
    simpa [lookup_cons_ite, h1'] using ih hrest

/-- After `d[k] = v`, looking up `k` yields `v`. -/
theorem setKey_lookup_self {α : Type} (l : List (String × α)) (k : String) (v : α) :
    (setKey l k v).lookup k = some v := by
  unfold setKey
  split_ifs with hany
  · exact lookup_map_setKey_self k v l hany
  · exact lookup_append_single_self k v l hany

/-- `d[k] = v` does not affect lookups of other keys. -/
theorem setKey_lookup_other {α : Type} (l : List (String × α)) (k k' : String)
    (v : α) (h : k' ≠ k) :
    (setKey l k v).lookup k' = l.lookup k' := by
  unfold setKey
  split_ifs with hany
  · exact lookup_map_setKey_other k k' v h l
  · exact lookup_append_single_other k k' v h l

/-- Looking up through a key-preserving map. -/
theorem lookup_map_keyed {β γ : Type} (f : String → β → γ) (lid : String) :
    ∀ (l : List (String × β)) (b : β), l.lookup lid = some b →
      (l.map (fun p => (p.1, f p.1 p.2))).lookup lid = some (f lid b) := by
  intro l
  induction l with
  | nil => intro b hb; simp at hb
  | cons a rest ih =>
    intro b hb
    by_cases h1 : lid = a.1
    · rw [lookup_cons_ite, if_pos h1] at hb
      obtain rfl := Option.some.inj hb
      simp only [List.map_cons, lookup_cons_ite, if_pos h1]
      rw [h1]
    · rw [lookup_cons_ite, if_neg h1] at hb
      simpa [lookup_cons_ite, h1] using ih b hb

/-- C8: `execute_switch(target, reason)` appends exactly one event carrying
the current `sim_time`, the previously active lane and the target; it moves
the green, stamps `last_switch_time` and the target's last-green time, and
changes nothing else: other lanes' last-green entries, all lane simulators,
the clock, the configuration, and every previously logged event (the log is
append-only, old prefix intact). -/
theorem C8_execute_switch_frame (j : JunctionState) (target : String)
    (reason : SwitchReason) :
    (execute_switch j target reason).2 = reason ∧
    (execute_switch j target reason).1.events_log =
      j.events_log ++
        [{ time := j.sim_time, event := "SHIFT_PRIORITY",
           from_lane := j.active_lane_id, to_lane := target, reason := reason }] ∧
    (execute_switch j target reason).1.active_lane_id = target ∧
    (execute_switch j target reason).1.last_switch_time = j.sim_time ∧
    (execute_switch j target reason).1.lane_last_green_times.lookup target =
      some j.sim_time ∧
    (∀ lid, lid ≠ target →
      (execute_switch j target reason).1.lane_last_green_times.lookup lid =
        j.lane_last_green_times.lookup lid) ∧
    (execute_switch j target reason).1.lanes = j.lanes ∧
    (execute_switch j target reason).1.sim_time = j.sim_time ∧
    (execute_switch j target reason).1.config = j.config ∧
    ∀ i e, j.events_log.get? i = some e →
      (execute_switch j target reason).1.events_log.get? i = some e := by
  refine ⟨rfl, rfl, rfl, rfl, ?_, ?_, rfl, rfl, rfl, ?_⟩
  · exact setKey_lookup_self _ _ _
  · intro lid hlid
    exact setKey_lookup_other _ _ _ _ hlid
  · intro i e he
    simp only [execute_switch]
    rw [List.get?_append (List.get?_eq_some.mp he).1]
    exact he

/-- C8 witness: a concrete switch on the freshly initialized junction. -/
theorem C8_witness :
    (execute_switch (jm_init default_config) "South" SwitchReason.MAX_TIME_EXPIRED).2 =
      SwitchReason.MAX_TIME_EXPIRED ∧
    (execute_switch (jm_init default_config) "South" SwitchReason.MAX_TIME_EXPIRED).1.active_lane_id =
      "South" ∧
    (execute_switch (jm_init default_config) "South"
        SwitchReason.MAX_TIME_EXPIRED).1.lane_last_green_times.lookup "East" =
      (jm_init default_config).lane_last_green_times.lookup "East" ∧
    (execute_switch (jm_init default_config) "South"
        SwitchReason.MAX_TIME_EXPIRED).1.lanes = (jm_init default_config).lanes := by
  have h := C8_execute_switch_frame (jm_init default_config) "South"
    SwitchReason.MAX_TIME_EXPIRED
  exact ⟨h.1, h.2.2.1, h.2.2.2.2.2.1 "East" (by decide), h.2.2.2.2.2.2.1⟩

/-- C4: the scores the switch evaluation computes agree, lane by lane, with
the spec formula `score(L) = queueLength(L) + alphaWaitWeight * waitTime(L)`
(zero wait for the active lane, `simTime - laneLastGreenTime[L]` otherwise). -/
theorem C4_score_matches_spec (j : JunctionState) (lid : String) (lane : LaneState)
    (h : j.lanes.lookup lid = some lane) :
    (scoresOf j).lookup lid = some (specScore j lid) := by
  have h1 := lookup_map_keyed (fun l ln => laneScore j l ln) lid j.lanes lane h
  have h2 : specScore j lid = laneScore j lid lane := by
    simp [specScore, laneScore, h]
  rw [h2]
  exact h1

/-! ### Lemmas about the best-candidate selection -/

/-- The fold step of `argmaxFirst` never decreases the running best score. -/
theorem argmaxFold_le (xs : List (String × ℚ)) :
    ∀ x : String × ℚ,
      x.2 ≤ (xs.foldl (fun best y => if y.2 > best.2 then y else best) x).2 := by
  induction xs with
  | nil => intro x; simp
  | cons y ys ih =>
    intro x
    simp only [List.foldl_cons]
    by_cases h : y.2 > x.2
    · exact le_trans (le_of_lt h) (by simpa [h] using ih y)
    · simpa [h] using ih x

/-- The fold of `argmaxFirst` returns one of its inputs. -/
theorem argmaxFold_mem (xs : List (String × ℚ)) :
    ∀ x : String × ℚ,
      (xs.foldl (fun best y => if y.2 > best.2 then y else best) x) ∈ x :: xs := by
  induction xs with
  | nil => intro x; simp
  | cons y ys ih =>
    intro x
    simp only [List.foldl_cons]
    have hmem := ih (if y.2 > x.2 then y else x)
    rcases List.mem_cons.mp hmem with h1 | h1
    · rw [h1]
      by_cases h : y.2 > x.2
      · rw [if_pos h]
        exact List.mem_cons_of_mem _ (List.mem_cons_self _ _)
      · rw [if_neg h]
        exact List.mem_cons_self _ _
    · exact List.mem_cons_of_mem _ (List.mem_cons_of_mem _ h1)

/-- The fold of `argmaxFirst` dominates every input's score. -/
theorem argmaxFold_ge (xs : List (String × ℚ)) :
    ∀ (x q : String × ℚ), q ∈ x :: xs →
      q.2 ≤ (xs.foldl (fun best y => if y.2 > best.2 then y else best) x).2 := by
  induction xs with
  | nil =>
    intro x q hq
    rcases List.mem_cons.mp hq with h | h
    · simp [h]
    · simp at h
  | cons y ys ih =>
    intro x q hq
    simp only [List.foldl_cons]
    have hstep : x.2 ≤ (if y.2 > x.2 then y else x).2 := by
      by_cases h : y.2 > x.2 <;> simp [h, le_of_lt]
    have hstepy : y.2 ≤ (if y.2 > x.2 then y else x).2 := by
      by_cases h : y.2 > x.2 <;> simp [h]
      exact le_of_not_lt h
    rcases List.mem_cons.mp hq with h1 | h1
    · subst h1
      exact le_trans hstep (argmaxFold_le ys _)
    · rcases List.mem_cons.mp h1 with h2 | h2
      · subst h2
        exact le_trans hstepy (argmaxFold_le ys _)
      · exact ih _ q (List.mem_cons_of_mem _ h2)

/-- `argmaxFirst` returns a member of the list. -/
theorem argmaxFirst_mem (l : List (String × ℚ)) (p : String × ℚ)
    (h : argmaxFirst l = some p) : p ∈ l := by
  cases l with
  | nil => simp [argmaxFirst] at h
  | cons x xs =>
    rw [argmaxFirst, Option.some.injEq] at h
    exact h ▸ argmaxFold_mem xs x

/-- `argmaxFirst` attains the maximal score of the list. -/
theorem argmaxFirst_ge (l : List (String × ℚ)) (p : String × ℚ)
    (h : argmaxFirst l = some p) : ∀ q ∈ l, q.2 ≤ p.2 := by
  cases l with
  | nil => simp [argmaxFirst] at h
  | cons x xs =>
    rw [argmaxFirst, Option.some.injEq] at h
    exact fun q hq => h ▸ argmaxFold_ge xs x q hq

/-- Closed form of `evaluate_switch_conditions` once the minimum-dwell guard
has passed and a best candidate exists. -/
theorem evaluate_unfold (j : JunctionState) (best : String × ℚ)
    (hhold : ¬ (j.sim_time - j.last_switch_time < j.config.min_green_time))
    (hbest : argmaxFirst ((scoresOf j).filter (fun p => p.1 ≠ j.active_lane_id)) =
      some best) :
    evaluate_switch_conditions j =
      (if (((j.lanes.lookup j.active_lane_id).map
              (fun l => l.queue.length)).getD 0 : Nat) ≤ 0 ∧ best.2 > 5 then
        ((execute_switch j best.1 SwitchReason.LANE_EMPTY).1,
          some SwitchReason.LANE_EMPTY)
      else if j.sim_time - j.last_switch_time ≥ j.config.max_green_time then
        ((execute_switch j best.1 SwitchReason.MAX_TIME_EXPIRED).1,
          some SwitchReason.MAX_TIME_EXPIRED)
      else if best.2 > ((scoresOf j).lookup j.active_lane_id).getD 0 +
          j.config.queue_threshold then
        ((execute_switch j best.1 SwitchReason.PRIORITY_OVERRIDE).1,
          some SwitchReason.PRIORITY_OVERRIDE)
      else (j, none)) := by
  simp only [evaluate_switch_conditions]
  rw [if_neg hhold, hbest]
  rfl

/-- `evaluate_switch_conditions` either leaves the state untouched with no
event, or performs one `execute_switch` — and then only with the
minimum-dwell guard satisfied. -/
theorem evaluate_cases (j : JunctionState) :
    (evaluate_switch_conditions j = (j, none)) ∨
    (∃ target reason,
      j.config.min_green_time ≤ j.sim_time - j.last_switch_time ∧
      evaluate_switch_conditions j =
        ((execute_switch j target reason).1, some reason)) := by
  by_cases hhold : j.sim_time - j.last_switch_time < j.config.min_green_time
  · left
    simp only [evaluate_switch_conditions]
    rw [if_pos hhold]
  · rcases hb : argmaxFirst ((scoresOf j).filter
        (fun p => p.1 ≠ j.active_lane_id)) with _ | best
    · left
      simp only [evaluate_switch_conditions]
      rw [if_neg hhold, hb]
    · rw [evaluate_unfold j best hhold hb]
      split_ifs with h1 h2 h3
      · exact Or.inr ⟨best.1, .LANE_EMPTY, not_lt.mp hhold, rfl⟩
      · exact Or.inr ⟨best.1, .MAX_TIME_EXPIRED, not_lt.mp hhold, rfl⟩
      · exact Or.inr ⟨best.1, .PRIORITY_OVERRIDE, not_lt.mp hhold, rfl⟩
      · exact Or.inl rfl

/-- The switch evaluation preserves the dwell invariant: a switch can only be
logged with the guard satisfied, putting it at least `min_green_time` after
the previously logged switch. -/
theorem dwellInv_evaluate (mg : ℚ) (j : JunctionState) (h : dwellInv mg j) :
    dwellInv mg (evaluate_switch_conditions j).1 := by
  rcases evaluate_cases j with hc | ⟨t, r, hg, hc⟩
  · rw [hc]
    exact h
  · rw [hc]
    obtain ⟨hcfg, hchain, hlast⟩ := h
    have hg' : mg ≤ j.sim_time - j.last_switch_time := hcfg ▸ hg
    refine ⟨hcfg, ?_, ?_⟩
    · show List.Chain' _ (j.events_log ++
        [({ time := j.sim_time, event := "SHIFT_PRIORITY",
            from_lane := j.active_lane_id, to_lane := t,
            reason := r } : SwitchEvent)])
      refine List.Chain'.append hchain (List.chain'_singleton _) ?_
      intro x hx y hy
      simp only [List.head?_cons, Option.mem_def, Option.some.injEq] at hy
      rw [← hy]
      have hxt := hlast x hx
      show x.time + mg ≤ j.sim_time
      rw [hxt]
      linarith
    · intro e he
      have h2 : (j.events_log ++
          [({ time := j.sim_time, event := "SHIFT_PRIORITY",
              from_lane := j.active_lane_id, to_lane := t,
              reason := r } : SwitchEvent)]).getLast? = some e := he
      rw [List.getLast?_concat] at h2
      have h3 := Option.some.inj h2
      show e.time = j.sim_time
      rw [← h3]

/-- One junction tick preserves the dwell invariant. -/
theorem dwellInv_step (mg : ℚ) (j : JunctionState) (dt : ℚ)
    (draws : String → List String) (h : dwellInv mg j) :
    dwellInv mg (jm_step j dt draws).1 := by
  simp only [jm_step]
  rcases ha : (arrivalsFold dt draws j.lanes).2 with e | reps
  · exact h
  · have h2 : dwellInv mg
        ({ j with lanes := (arrivalsFold dt draws j.lanes).1,
                  sim_time := j.sim_time + dt }) := h
    have h3 := dwellInv_evaluate mg _ h2
    show dwellInv mg (process_departures _ dt)
    set j3 := (evaluate_switch_conditions
      { j with lanes := (arrivalsFold dt draws j.lanes).1,
               sim_time := j.sim_time + dt }).1
    rw [process_departures]
    rcases j3.lanes.lookup j3.active_lane_id with _ | lane
    · exact h3
    · exact h3

/-- Any run of ticks preserves the dwell invariant. -/
theorem dwellInv_run (mg : ℚ) :
    ∀ (inputs : List (ℚ × (String → List String))) (j : JunctionState),
      dwellInv mg j → dwellInv mg (jm_run j inputs) := by
  intro inputs
  induction inputs with
  | nil => intro j h; exact h
  | cons i rest ih =>
    intro j h
    rcases i with ⟨dt, draws⟩
    exact ih _ (dwellInv_step mg j dt draws h)

/-- C2: the minimum-dwell guard returns early with no transition whenever the
state duration is below `min_green_time`; consequently, over any run of
ticks, consecutive logged lane switches are at least `min_green_time` apart. -/
theorem C2_minimum_dwell :
    (∀ j : JunctionState,
      j.sim_time - j.last_switch_time < j.config.min_green_time →
      evaluate_switch_conditions j = (j, none)) ∧
    (∀ (cfg : JConfig) (inputs : List (ℚ × (String → List String))),
      (∀ i ∈ inputs, 0 < i.1) →
      List.Chain' (fun e1 e2 => e1.time + cfg.min_green_time ≤ e2.time)
        (jm_run (jm_init cfg) inputs).events_log) := by
  constructor
  · intro j h
    simp only [evaluate_switch_conditions]
    rw [if_pos h]
  · intro cfg inputs _
    have h0 : dwellInv cfg.min_green_time (jm_init cfg) :=
      ⟨rfl, List.chain'_nil, by intro e he; simp [jm_init] at he⟩
    exact (dwellInv_run _ inputs _ h0).2.1

/-- C2 witness: at initialization the guard holds (0 < 5) and blocks any
transition; a one-tick run keeps the event log dwell-consistent. -/
theorem C2_witness :
    ((jm_init default_config).sim_time - (jm_init default_config).last_switch_time <
        (jm_init default_config).config.min_green_time ∧
      evaluate_switch_conditions (jm_init default_config) =
        (jm_init default_config, none)) ∧
    ((∀ i ∈ [((1 : ℚ), (fun _ => [] : String → List String))], 0 < i.1) ∧
      List.Chain'
        (fun e1 e2 => e1.time + default_config.min_green_time ≤ e2.time)
        (jm_run (jm_init default_config)
          [((1 : ℚ), fun _ => [])]).events_log) := by
  have hlt : (jm_init default_config).sim_time -
      (jm_init default_config).last_switch_time <
      (jm_init default_config).config.min_green_time := by
    norm_num [jm_init, default_config]
  have hdt : ∀ i ∈ [((1 : ℚ), (fun _ => [] : String → List String))], 0 < i.1 := by
    intro i hi
    rw [List.mem_singleton] at hi
    subst hi
    norm_num
  exact ⟨⟨hlt, C2_minimum_dwell.1 _ hlt⟩,
    ⟨hdt, C2_minimum_dwell.2 default_config _ hdt⟩⟩

/-- C3: past the dwell guard, the three transition rules are tried in the
fixed order `LANE_EMPTY` (active queue empty and best score above the
hard-coded floor 5), then `MAX_TIME_EXPIRED` (`stateDuration ≥ maxGreenTime`,
hence also at exact equality), then `PRIORITY_OVERRIDE` (best score beats the
active score by more than `queueThreshold`); the first match wins, at most
one switch happens, and any switch targets the first lane attaining the
maximal score among non-active lanes. -/
theorem C3_transition_rules (j : JunctionState) (best : String × ℚ)
    (hhold : ¬ (j.sim_time - j.last_switch_time < j.config.min_green_time))
    (hbest : argmaxFirst ((scoresOf j).filter (fun p => p.1 ≠ j.active_lane_id)) =
      some best) :
    (best ∈ (scoresOf j).filter (fun p => p.1 ≠ j.active_lane_id) ∧
      ∀ q ∈ (scoresOf j).filter (fun p => p.1 ≠ j.active_lane_id), q.2 ≤ best.2) ∧
    ((((j.lanes.lookup j.active_lane_id).map
          (fun l => l.queue.length)).getD 0 ≤ 0 ∧ best.2 > 5) →
      evaluate_switch_conditions j =
        ((execute_switch j best.1 SwitchReason.LANE_EMPTY).1,
          some SwitchReason.LANE_EMPTY)) ∧
    (¬ (((j.lanes.lookup j.active_lane_id).map
          (fun l => l.queue.length)).getD 0 ≤ 0 ∧ best.2 > 5) →
      j.sim_time - j.last_switch_time ≥ j.config.max_green_time →
      evaluate_switch_conditions j =
        ((execute_switch j best.1 SwitchReason.MAX_TIME_EXPIRED).1,
          some SwitchReason.MAX_TIME_EXPIRED)) ∧
    (¬ (((j.lanes.lookup j.active_lane_id).map
          (fun l => l.queue.length)).getD 0 ≤ 0 ∧ best.2 > 5) →
      ¬ (j.sim_time - j.last_switch_time ≥ j.config.max_green_time) →
      best.2 > ((scoresOf j).lookup j.active_lane_id).getD 0 +
        j.config.queue_threshold →
      evaluate_switch_conditions j =
        ((execute_switch j best.1 SwitchReason.PRIORITY_OVERRIDE).1,
          some SwitchReason.PRIORITY_OVERRIDE)) ∧
    (¬ (((j.lanes.lookup j.active_lane_id).map
          (fun l => l.queue.length)).getD 0 ≤ 0 ∧ best.2 > 5) →
      ¬ (j.sim_time - j.last_switch_time ≥ j.config.max_green_time) →
      ¬ (best.2 > ((scoresOf j).lookup j.active_lane_id).getD 0 +
          j.config.queue_threshold) →
      evaluate_switch_conditions j = (j, none)) ∧
    (∀ j' r, evaluate_switch_conditions j = (j', some r) →
      j'.active_lane_id = best.1) := by
  refine ⟨⟨argmaxFirst_mem _ _ hbest, argmaxFirst_ge _ _ hbest⟩, ?_, ?_, ?_, ?_, ?_⟩
  · intro h1
    rw [evaluate_unfold j best hhold hbest, if_pos h1]
  · intro h1 h2
    rw [evaluate_unfold j best hhold hbest, if_neg h1, if_pos h2]
  · intro h1 h2 h3
    rw [evaluate_unfold j best hhold hbest, if_neg h1, if_neg h2, if_pos h3]
  · intro h1 h2 h3
    rw [evaluate_unfold j best hhold hbest, if_neg h1, if_neg h2, if_neg h3]
  · intro j' r h
    rw [evaluate_unfold j best hhold hbest] at h
    split_ifs at h with h1 h2 h3
    · have hj : (execute_switch j best.1 SwitchReason.LANE_EMPTY).1 = j' :=
        congrArg Prod.fst h
      rw [← hj]
      rfl
    · have hj : (execute_switch j best.1 SwitchReason.MAX_TIME_EXPIRED).1 = j' :=
        congrArg Prod.fst h
      rw [← hj]
      rfl
    · have hj : (execute_switch j best.1 SwitchReason.PRIORITY_OVERRIDE).1 = j' :=
        congrArg Prod.fst h
      rw [← hj]
      rfl
    · have hn : (none : Option SwitchReason) = some r := congrArg Prod.snd h
      exact absurd hn (by simp)

/-- C3 witness: on `jW3` the dwell equals `max_green_time` exactly, the
empty-lane and priority rules do not apply, and `MAX_TIME_EXPIRED` switches
to South, the first lane attaining the best non-active score. -/
theorem C3_witness :
    jW3.sim_time - jW3.last_switch_time = jW3.config.max_green_time ∧
    evaluate_switch_conditions jW3 =
      ((execute_switch jW3 "South" SwitchReason.MAX_TIME_EXPIRED).1,
        some SwitchReason.MAX_TIME_EXPIRED) := by
  have hsc : scoresOf jW3 =
      [("North", 1), ("South", 15), ("East", 15), ("West", 15)] := by
    norm_num [scoresOf, laneScore, jW3, jm_init, default_config, ts_init,
      lookup_cons_ite]
    decide
  have hhold : ¬ (jW3.sim_time - jW3.last_switch_time <
      jW3.config.min_green_time) := by
    norm_num [jW3, jm_init, default_config]
  have hact : jW3.active_lane_id = "North" := rfl
  have hbest : argmaxFirst ((scoresOf jW3).filter
      (fun p => p.1 ≠ jW3.active_lane_id)) = some ("South", 15) := by
    rw [hsc, hact]
    decide
  have h := C3_transition_rules jW3 ("South", 15) hhold hbest
  have hcql : ((jW3.lanes.lookup jW3.active_lane_id).map
      (fun l => l.queue.length)).getD 0 = 1 := by
    rw [hact]
    decide
  have hmax : jW3.sim_time - jW3.last_switch_time ≥
      jW3.config.max_green_time := by
    norm_num [jW3, jm_init, default_config]
  refine ⟨by norm_num [jW3, jm_init, default_config], ?_⟩
  have h3 := h.2.2.1 (by rw [hcql]; norm_num) hmax
  simpa using h3

/-! ### Lemmas for queue conservation across a tick -/

/-- A successful lane `step` appends exactly the reported number of arrivals
to the queue and leaves `vehicles_passed` untouched. -/
theorem ts_step_ok (st : LaneState) (dt : ℚ) (ts : List String)
    (st' : LaneState) (rep : ArrivalReport)
    (h : ts_step st dt ts = (st', Except.ok rep)) :
    st'.queue.length = st.queue.length + rep.new_arrivals ∧
    st'.vehicles_passed = st.vehicles_passed := by
  simp only [ts_step] at h
  split_ifs at h with hl h0
  · exact absurd (congrArg Prod.snd h) (by simp)
  all_goals
    rw [Prod.mk.injEq] at h
    obtain ⟨h1, h2⟩ := h
    have h3 := Except.ok.inj h2
    subst h1
    rw [← h3]
    simp

/-- Per-lane content of a successful arrivals phase, keyed by lane id. -/
theorem arrivalsFold_ok_lookup (dt : ℚ) (draws : String → List String) :
    ∀ (lanes lanes' : List (String × LaneState))
      (reps : List (String × ArrivalReport)),
      arrivalsFold dt draws lanes = (lanes', Except.ok reps) →
      ∀ lid lane, lanes.lookup lid = some lane →
        ∃ lane' rep, lanes'.lookup lid = some lane' ∧
          reps.lookup lid = some rep ∧
          lane'.queue.length = lane.queue.length + rep.new_arrivals ∧
          lane'.vehicles_passed = lane.vehicles_passed := by
  intro lanes
  induction lanes with
  | nil =>
    intro lanes' reps h lid lane hl
    simp at hl
  | cons a rest ih =>
    intro lanes' reps h lid lane hl
    rcases a with ⟨k, l⟩
    simp only [arrivalsFold] at h
    rcases hts : ts_step l dt (draws k) with ⟨l1, r1⟩
    simp only [hts] at h
    cases r1 with
    | error e => simp at h
    | ok rep0 =>
      rcases hrec : arrivalsFold dt draws rest with ⟨rest', r2⟩
      simp only [hrec] at h
      cases r2 with
      | error e2 => simp at h
      | ok reps0 =>
        simp only [Prod.mk.injEq, Except.ok.injEq] at h
        obtain ⟨h1, h2⟩ := h
        subst h1
        subst h2
        by_cases hk : lid = k
        · subst hk
          rw [lookup_cons_ite, if_pos rfl] at hl
          obtain rfl := Option.some.inj hl
          refine ⟨l1, rep0, ?_, ?_, ?_, ?_⟩
          · rw [lookup_cons_ite]
            simp
          · rw [lookup_cons_ite]
            simp
          · exact (ts_step_ok _ _ _ _ _ hts).1
          · exact (ts_step_ok _ _ _ _ _ hts).2
        · rw [lookup_cons_ite, if_neg hk] at hl
          obtain ⟨lane', rep, hla, hlb, hlc, hld⟩ := ih rest' reps0 hrec lid lane hl
          refine ⟨lane', rep, ?_, ?_, hlc, hld⟩
          · rw [lookup_cons_ite, if_neg hk]
            exact hla
          · rw [lookup_cons_ite, if_neg hk]
            exact hlb

/-- The departure loop conserves vehicles: remaining queue plus discharges
equals the initial queue plus the initial counter. -/
theorem processLoop_length (sim : ℚ) :
    ∀ (q : List Vehicle) (tr : ℚ) (dc : Nat) (dts : List String) (tw : ℚ),
      (processLoop sim q tr dc dts tw).1.length +
        (processLoop sim q tr dc dts tw).2.1 = q.length + dc := by
  intro q
  induction q with
  | nil =>
    intro tr dc dts tw
    simp [processLoop]
  | cons v rest ih =>
    intro tr dc dts tw
    rw [processLoop]
    by_cases h1 : tr > 0
    · rw [if_pos h1]
      by_cases h2 : tr ≥ dischargeCost v.vtype ∨ (dc = 0 ∧ tr > 1/2)
      · rw [if_pos h2]
        have h3 := ih (tr - dischargeCost v.vtype) (dc + 1) (dts ++ [v.vtype])
          (tw + (sim - v.arrival_time))
        simp only [List.length_cons]
        omega
      · rw [if_neg h2]
    · rw [if_neg h1]

/-- `process_traffic` conserves vehicles and counts its discharges in
`vehicles_passed`. -/
theorem process_traffic_conservation (st : LaneState) (d : ℚ) :
    (process_traffic st d).1.vehicles_passed =
      st.vehicles_passed + (process_traffic st d).2.discharged_count ∧
    (process_traffic st d).1.queue.length +
      (process_traffic st d).2.discharged_count = st.queue.length := by
  refine ⟨rfl, ?_⟩
  have h := processLoop_length st.sim_time st.queue d 0 [] 0
  simpa [process_traffic] using h

/-- The switch evaluation never touches the lane simulators. -/
theorem evaluate_lanes (j : JunctionState) :
    (evaluate_switch_conditions j).1.lanes = j.lanes := by
  rcases evaluate_cases j with hc | ⟨t, r, _, hc⟩
  · rw [hc]
  · rw [hc]
    rfl

/-- The departure phase: active lane unchanged, non-active lanes untouched,
the active lane replaced by its `process_traffic` result. -/
theorem process_departures_spec (j : JunctionState) (dt : ℚ) :
    (process_departures j dt).active_lane_id = j.active_lane_id ∧
    (∀ lid, lid ≠ j.active_lane_id →
      (process_departures j dt).lanes.lookup lid = j.lanes.lookup lid) ∧
    (∀ lane, j.lanes.lookup j.active_lane_id = some lane →
      (process_departures j dt).lanes.lookup j.active_lane_id =
        some (process_traffic lane dt).1) := by
  rcases hl : j.lanes.lookup j.active_lane_id with _ | lane
  · have hj : process_departures j dt = j := by
      simp only [process_departures, hl]
    rw [hj]
    refine ⟨rfl, fun _ _ => rfl, ?_⟩
    intro lane h2
    exact absurd h2 (by simp)
  · have hj : process_departures j dt =
        { j with lanes := (setKey j.lanes j.active_lane_id (process_traffic lane dt).1) } := by
      simp only [process_departures, hl]
    rw [hj]
    refine ⟨rfl, ?_, ?_⟩
    · intro lid hlid
      exact setKey_lookup_other _ _ _ _ hlid
    · intro lane2 h2
      obtain rfl := Option.some.inj h2
      exact setKey_lookup_self j.lanes j.active_lane_id (process_traffic lane dt).1

/-- C5: over one junction tick that completes normally, every lane's queue
obeys `after + discharged = before + reported arrivals`, with `discharged = 0`
for every lane other than the one active during the departure phase. -/
theorem C5_queue_conservation (j : JunctionState) (dt : ℚ)
    (draws : String → List String) (j' : JunctionState) (rep : TickReport)
    (hstep : jm_step j dt draws = (j', Except.ok rep))
    (lid : String) (lane : LaneState)
    (hlane : j.lanes.lookup lid = some lane) :
    ∃ (lane' : LaneState) (ar : ArrivalReport) (d : Nat),
      j'.lanes.lookup lid = some lane' ∧
      rep.lane_states.lookup lid = some ar ∧
      lane'.vehicles_passed = lane.vehicles_passed + d ∧
      lane'.queue.length + d = lane.queue.length + ar.new_arrivals ∧
      (lid ≠ j'.active_lane_id → d = 0) := by
  simp only [jm_step] at hstep
  rcases ha : arrivalsFold dt draws j.lanes with ⟨lanes1, r⟩
  simp only [ha] at hstep
  cases r with
  | error e => simp at hstep
  | ok lane_states =>
    simp only [Prod.mk.injEq, Except.ok.injEq] at hstep
    obtain ⟨hj', hrep⟩ := hstep
    obtain ⟨lane1, ar, ha1, ha2, ha3, ha4⟩ :=
      arrivalsFold_ok_lookup dt draws j.lanes lanes1 lane_states ha lid lane hlane
    set j2 : JunctionState :=
      { j with lanes := lanes1, sim_time := j.sim_time + dt } with hj2
    set j3 := (evaluate_switch_conditions j2).1 with hj3
    have hl3 : j3.lanes = lanes1 := evaluate_lanes j2
    have hd := process_departures_spec j3 dt
    by_cases hact : lid = j3.active_lane_id
    · have hlook3 : j3.lanes.lookup j3.active_lane_id = some lane1 := by
        rw [hl3, ← hact]
        exact ha1
      have hfin := hd.2.2 lane1 hlook3
      refine ⟨(process_traffic lane1 dt).1, ar,
        (process_traffic lane1 dt).2.discharged_count, ?_, ?_, ?_, ?_, ?_⟩
      · rw [← hj', hact]
        exact hfin
      · rw [← hrep]
        exact ha2
      · rw [(process_traffic_conservation lane1 dt).1, ha4]
      · have hcons := (process_traffic_conservation lane1 dt).2
        omega
      · intro hne
        have : lid = j'.active_lane_id := by
          rw [hact, ← hd.1, hj']
        exact absurd this hne
    · refine ⟨lane1, ar, 0, ?_, ?_, ?_, ?_, fun _ => rfl⟩
      · rw [← hj']
        rw [hd.2.1 lid hact, hl3]
        exact ha1
      · rw [← hrep]
        exact ha2
      · omega
      · omega

/-- C5 witness: one deterministic tick on the rate-0 single-lane junction. -/
theorem C5_witness :
    ∃ (j' : JunctionState) (rep : TickReport),
      jm_step (jm_init cfgW5) 1 (fun _ => []) = (j', Except.ok rep) ∧
      ∃ (lane' : LaneState) (ar : ArrivalReport) (d : Nat),
        j'.lanes.lookup "North" = some lane' ∧
        rep.lane_states.lookup "North" = some ar ∧
        lane'.vehicles_passed = (ts_init "North" 0 none).vehicles_passed + d ∧
        lane'.queue.length + d =
          (ts_init "North" 0 none).queue.length + ar.new_arrivals ∧
        ("North" ≠ j'.active_lane_id → d = 0) := by
  have h2 : (jm_step (jm_init cfgW5) 1 (fun _ => [])).2 = Except.ok repW5 := by
    norm_num [jm_step, arrivalsFold, ts_step, jm_init, cfgW5, default_config,
      ts_init, evaluate_switch_conditions, process_departures, process_traffic,
      processLoop, setKey, scoresOf, laneScore, argmaxFirst, lookup_cons_ite,
      repW5]
  have hstep : jm_step (jm_init cfgW5) 1 (fun _ => []) =
      ((jm_step (jm_init cfgW5) 1 (fun _ => [])).1, Except.ok repW5) := by
    rw [← h2]
  refine ⟨(jm_step (jm_init cfgW5) 1 (fun _ => [])).1, repW5, hstep, ?_⟩
  exact C5_queue_conservation (jm_init cfgW5) 1 (fun _ => []) _ repW5 hstep
    "North" (ts_init "North" 0 none) rfl

/-- C6 counterexample: `step(0)` is not rejected with an error: the lane
simulator returns a normal report and leaves the lane unchanged, and the
junction tick likewise completes normally and leaves the junction unchanged
— a silent no-op, not an error. -/
theorem C6_counterexample :
    ts_step (ts_init "L" 10 none) 0 [] =
      (ts_init "L" 10 none,
        Except.ok
          { lane_id := "L", new_arrivals := 0, queue_length := 0,
            new_types := [] }) ∧
    (jm_step (jm_init default_config) 0 (fun _ => [])).1 =
      jm_init default_config ∧
    ∃ rep, (jm_step (jm_init default_config) 0 (fun _ => [])).2 =
      Except.ok rep := by
  refine ⟨?_, ?_, ?_⟩
  · norm_num [ts_step, ts_init]
  · norm_num [jm_step, arrivalsFold, ts_step, jm_init, default_config, ts_init,
      evaluate_switch_conditions, process_departures, process_traffic,
      processLoop, setKey, scoresOf, laneScore, argmaxFirst, lookup_cons_ite]
    decide
  · refine ⟨repC6, ?_⟩
    norm_num [jm_step, arrivalsFold, ts_step, jm_init, default_config, ts_init,
      evaluate_switch_conditions, process_departures, process_traffic,
      processLoop, setKey, scoresOf, laneScore, argmaxFirst, lookup_cons_ite,
      repC6]

/-- C6 amended: neither `step` validates `dt`. A zero `dt` is silently
accepted as a no-op (normal report, zero arrivals, state unchanged), while a
negative `dt` with a positive arrival rate is rejected only inside the
Poisson sampler (negative mean `ValueError`), after `sim_time` has already
been advanced. -/
theorem C6_amended_no_dt_validation (st : LaneState) (dt : ℚ) (ts : List String)
    (hneg : dt < 0) (hrate : 0 < st.arrival_rate) :
    ts_step st 0 ts =
      (st,
        Except.ok
          { lane_id := st.lane_id, new_arrivals := 0,
            queue_length := st.queue.length, new_types := [] }) ∧
    ts_step st dt ts =
      ({ st with sim_time := st.sim_time + dt }, Except.error "lam < 0") := by
  constructor
  · simp [ts_step]
  · have hlam : st.arrival_rate / 60 * dt < 0 :=
      mul_neg_of_pos_of_neg (div_pos hrate (by norm_num)) hneg
    simp [ts_step, hlam]

/-- C6 witness: the amended behavior at `dt = -1` on a rate-10 lane. -/
theorem C6_witness :
    (-1 : ℚ) < 0 ∧ (0 : ℚ) < (ts_init "L" 10 none).arrival_rate ∧
    (ts_step (ts_init "L" 10 none) 0 [] =
      (ts_init "L" 10 none,
        Except.ok
          { lane_id := (ts_init "L" 10 none).lane_id, new_arrivals := 0,
            queue_length := (ts_init "L" 10 none).queue.length,
            new_types := [] }) ∧
     ts_step (ts_init "L" 10 none) (-1) [] =
      ({ ts_init "L" 10 none with
          sim_time := (ts_init "L" 10 none).sim_time + (-1) },
        Except.error "lam < 0")) :=
  ⟨by norm_num, by norm_num [ts_init],
    C6_amended_no_dt_validation (ts_init "L" 10 none) (-1) [] (by norm_num)
      (by norm_num [ts_init])⟩

/-- C7 counterexample: construction does not fail fast on an invalid
configuration: `jm_init` accepts `max_green_time < min_green_time` verbatim
and the resulting junction even ticks normally; `ts_init` accepts a negative
arrival rate and stores a zero-sum probability table unvalidated. -/
theorem C7_counterexample :
    bad_config.max_green_time < bad_config.min_green_time ∧
    (jm_init bad_config).config = bad_config ∧
    (jm_init bad_config).lanes.length = 4 ∧
    (jm_step (jm_init bad_config) 1 (fun _ => [])).2 = Except.ok repC7 ∧
    (ts_init "L" (-3) none).arrival_rate = -3 ∧
    (ts_init "L" 1 (some [("Car", 0)])).vehicle_probs = [("Car", 0)] := by
  refine ⟨by norm_num [bad_config, default_config], rfl, rfl, ?_, rfl, rfl⟩
  norm_num [jm_step, arrivalsFold, ts_step, jm_init, bad_config, default_config,
    ts_init, evaluate_switch_conditions, process_departures, process_traffic,
    processLoop, setKey, scoresOf, laneScore, argmaxFirst, lookup_cons_ite,
    repC7]

/-- C7 amended: no validation and no clamping happen at construction: the
junction stores any configuration verbatim (including
`max_green_time ≤ min_green_time` and negative rates) and the lane simulator
stores any arrival rate and any non-empty probability table verbatim;
probabilities are normalized only later, at sampling time. -/
theorem C7_amended_no_validation (cfg : JConfig) (lid : String) (r : ℚ)
    (ps : List (String × ℚ)) (hps : ps ≠ []) :
    (jm_init cfg).config = cfg ∧
    (jm_init cfg).lanes.length = cfg.arrival_rates.length ∧
    (ts_init lid r none).arrival_rate = r ∧
    (ts_init lid r (some ps)).vehicle_probs = ps := by
  refine ⟨rfl, by simp [jm_init], rfl, ?_⟩
  cases ps with
  | nil => exact absurd rfl hps
  | cons a l => rfl

/-- C7 witness: the amended behavior at the concrete invalid inputs. -/
theorem C7_witness :
    ([(("Car" : String), (0 : ℚ))] ≠ []) ∧
    ((jm_init bad_config).config = bad_config ∧
     (jm_init bad_config).lanes.length = bad_config.arrival_rates.length ∧
     (ts_init "L" (-3) none).arrival_rate = -3 ∧
     (ts_init "L" (-3) (some [("Car", 0)])).vehicle_probs = [("Car", 0)]) :=
  ⟨by simp,
    C7_amended_no_validation bad_config "L" (-3) [("Car", 0)] (by simp)⟩

/-- C4 witness: the North lane of a junction whose clock has advanced. -/
theorem C4_witness :
    jC4.lanes.lookup "North" = some (ts_init "North" 12 none) ∧
    (scoresOf jC4).lookup "North" = some (specScore jC4 "North") :=
  ⟨rfl, C4_score_matches_spec jC4 "North" (ts_init "North" 12 none) rfl⟩

/-- C10 witness: an unknown type `"Rickshaw"` is discharged at cost 2. -/
theorem C10_witness :
    discharge_costs.lookup "Rickshaw" = none ∧
    dischargeCost "Rickshaw" = 2 ∧
    processLoop 5 [{ vtype := "Rickshaw", arrival_time := 1 }] 3 0 [] 0 =
      processLoop 5 [] (3 - 2) (0 + 1) ([] ++ ["Rickshaw"]) (0 + (5 - 1)) :=
  ⟨by decide,
    (C10_default_discharge_cost "Rickshaw" (by decide) 5 3 []
        { vtype := "Rickshaw", arrival_time := 1 } 0 [] 0 rfl (by norm_num)
        (Or.inr ⟨rfl, by norm_num⟩)).1,
    (C10_default_discharge_cost "Rickshaw" (by decide) 5 3 []
        { vtype := "Rickshaw", arrival_time := 1 } 0 [] 0 rfl (by norm_num)
        (Or.inr ⟨rfl, by norm_num⟩)).2⟩

end Traffic
